import Mathlib

/-!
Shallow embedding of the `BrokerAgentStack` CDK stack
(`src/lib/broker-agent-stack.ts`) of the broker-agent repository,
and proofs of the specification claims about it.

The stack wires:
  * a source S3 bucket emitting OBJECT_CREATED notifications to a trigger
    Lambda (`trigger_sync.handler`),
  * custom resources provisioning a vector bucket, a vector index and a
    Bedrock knowledge base (with explicit `addDependency` ordering),
  * a Bedrock data source bound to the literal knowledge-base id
    `F0RI3FAYPP`,
  * a Step Functions state machine
    CheckSyncStatus (Pass) -> StartSyncJob (LambdaInvoke) ->
    WaitForSync (Wait 2 minutes) -> CheckJobStatus (LambdaInvoke) ->
    IsSyncComplete (Choice on `$.Payload.final_status`:
    COMPLETE -> SyncComplete, FAILED -> SyncFailed, otherwise back to
    WaitForSync), with an overall execution timeout of 2 hours.
-/

namespace BrokerAgent

/-- The states of the sync Step Functions state machine, as constructed at
lines 362-406 of `broker-agent-stack.ts`. -/
inductive SyncState where
  | checkSyncStatus
  | startSyncJob
  | waitForSync
  | checkJobStatus
  | syncComplete
  | syncFailed
deriving DecidableEq, Repr

/-- The kind of each Step Functions state, as declared in the stack. -/
inductive StateKind where
  | pass
  | task
  | wait
  | succeed
  | fail
deriving DecidableEq, Repr

/-- Kind of each state: `CheckSyncStatus` is a `stepfunctions.Pass`,
`StartSyncJob` and `CheckJobStatus` are `LambdaInvoke` tasks,
`WaitForSync` is a `stepfunctions.Wait`, `SyncComplete` is a `Succeed`,
`SyncFailed` is a `Fail`. -/
def stateKind : SyncState → StateKind
  | .checkSyncStatus => .pass
  | .startSyncJob => .task
  | .waitForSync => .wait
  | .checkJobStatus => .task
  | .syncComplete => .succeed
  | .syncFailed => .fail

/-- A state is terminal when it is the Succeed or the Fail state. -/
def isTerminal : SyncState → Bool
  | .syncComplete => true
  | .syncFailed => true
  | _ => false

/-- The `IsSyncComplete` Choice state (lines 403-406): branches on the
`final_status` field of the CheckJobStatus payload; `COMPLETE` goes to
`SyncComplete`, `FAILED` goes to `SyncFailed`, anything else goes back to
`WaitForSync`. -/
def isSyncComplete (final_status : String) : SyncState :=
  if final_status = "COMPLETE" then .syncComplete
  else if final_status = "FAILED" then .syncFailed
  else .waitForSync

/-- The unconditional `.next` chaining of the workflow definition
(lines 399-402): CheckSyncStatus to StartSyncJob to WaitForSync to
CheckJobStatus; CheckJobStatus continues into the Choice state and the
terminal states have no successor. -/
def chainNext : SyncState → Option SyncState
  | .checkSyncStatus => some .startSyncJob
  | .startSyncJob => some .waitForSync
  | .waitForSync => some .checkJobStatus
  | .checkJobStatus => none
  | .syncComplete => none
  | .syncFailed => none

/-- The fixed pause of the `WaitForSync` state:
`cdk.Duration.minutes(2)`, in seconds. -/
def waitSeconds : Nat := 2 * 60

/-- The overall state-machine timeout: `cdk.Duration.hours(2)` at line 411,
in seconds. -/
def timeoutSeconds : Nat := 2 * 60 * 60

/-- The kind of a Step Functions wait: a fixed duration in seconds, an
absolute timestamp, or a condition. -/
inductive WaitTimeKind where
  | duration (seconds : Nat)
  | untilTimestamp (timestamp : String)
  | condition
deriving DecidableEq, Repr

/-- The wait time of `WaitForSync` as declared at line 376:
`stepfunctions.WaitTime.duration(cdk.Duration.minutes(2))`. -/
def waitForSyncTime : WaitTimeKind := .duration waitSeconds

/-- Pause behaviour of each state: only `WaitForSync` pauses, and it pauses
on the fixed time `waitForSyncTime`; no other state of the definition has a
wait of any kind. -/
def statePause : SyncState → Option WaitTimeKind
  | .waitForSync => some waitForSyncTime
  | _ => none

/-- Pass-state semantics of `CheckSyncStatus` (lines 362-364): a
`stepfunctions.Pass` with only a comment passes its input through
unchanged; it has no access to, and performs no check of, other running
executions (modelled by the ignored `runningExecutions` argument). -/
def checkSyncStatusOutput {α : Type} (runningExecutions : Nat) (input : α) : α :=
  input

/-- Outcome of one execution of the sync state machine: the Succeed state,
a failure (Fail state or an unhandled task error), or abortion by the
2-hour execution timeout. -/
inductive Outcome where
  | succeeded
  | failed
  | timedOut
deriving DecidableEq, Repr

/-- The Wait/CheckJobStatus/Choice loop of the definition
(lines 401-406), run against a stream `polls` of CheckJobStatus results
(`Except.error` is an unhandled Lambda failure, `Except.ok s` a payload
whose `final_status` is `s`).  `elapsed` is the wall-clock time consumed so
far (time advances only in the Wait state); an iteration whose wait would
run past `timeoutSeconds` is aborted by the execution timeout.  Returns the
states visited from the first Wait on, and the outcome. -/
def pollLoop (polls : Nat → Except Unit String) :
    Nat → Nat → Nat → List SyncState × Outcome
  | _, _, 0 => ([], .timedOut)
  | i, elapsed, fuel + 1 =>
    if timeoutSeconds < elapsed + waitSeconds then
      ([.waitForSync], .timedOut)
    else
      match polls i with
      | .error _ => ([.waitForSync, .checkJobStatus], .failed)
      | .ok s =>
        match isSyncComplete s with
        | .syncComplete => ([.waitForSync, .checkJobStatus, .syncComplete], .succeeded)
        | .syncFailed => ([.waitForSync, .checkJobStatus, .syncFailed], .failed)
        | _ =>
          let r := pollLoop polls (i + 1) (elapsed + waitSeconds) fuel
          (.waitForSync :: .checkJobStatus :: r.1, r.2)

/-- Fuel that can never be exhausted before the timeout guard fires: one
more than the number of whole waits fitting in the timeout. -/
def pollFuel : Nat := timeoutSeconds / waitSeconds + 1

/-- One execution of the sync state machine: the Pass state, then
StartSyncJob (`startResult` is its Lambda invocation result; an unhandled
failure fails the execution with no retry and no further state), then the
Wait/CheckJobStatus loop.  Returns the list of states visited and the
outcome. -/
def runSync (startResult : Except Unit Unit) (polls : Nat → Except Unit String) :
    List SyncState × Outcome :=
  match startResult with
  | .error _ => ([.checkSyncStatus, .startSyncJob], .failed)
  | .ok _ =>
    let r := pollLoop polls 0 0 pollFuel
    (.checkSyncStatus :: .startSyncJob :: r.1, r.2)

/-- The constructs declared by `BrokerAgentStack`, in declaration order. -/
inductive Node where
  | policySourceBucket
  | createVectorBucketLambda
  | vectorBucketCr
  | createVectorIndexLambda
  | vectorIndexCr
  | kbRole
  | createKnowledgeBaseLambda
  | knowledgeBaseCr
  | bedrockDataSource
  | syncKnowledgeBaseLambda
  | syncStateMachine
  | triggerSyncLambda
  | s3DeployPolicies
deriving DecidableEq, Repr

/-- Direct dependency edges of the construct tree, as declared in the
stack: the explicit `addDependency` calls (lines 182, 277-278, 459-464)
plus the implicit edges from one construct referencing an attribute of
another (a custom resource invoking its Lambda, the data source using the
source bucket ARN, the state-machine tasks using the sync Lambda and the
data source id, the trigger Lambda using the state-machine ARN and the
data source id). -/
def directDeps : Node → List Node
  | .policySourceBucket => []
  | .createVectorBucketLambda => []
  | .vectorBucketCr => [.createVectorBucketLambda]
  | .createVectorIndexLambda => []
  | .vectorIndexCr => [.createVectorIndexLambda, .vectorBucketCr]
  | .kbRole => []
  | .createKnowledgeBaseLambda => []
  | .knowledgeBaseCr => [.createKnowledgeBaseLambda, .vectorIndexCr, .kbRole]
  | .bedrockDataSource => [.policySourceBucket]
  | .syncKnowledgeBaseLambda => [.bedrockDataSource]
  | .syncStateMachine => [.syncKnowledgeBaseLambda, .bedrockDataSource]
  | .triggerSyncLambda => [.syncStateMachine, .bedrockDataSource]
  | .s3DeployPolicies =>
    [.policySourceBucket, .vectorBucketCr, .vectorIndexCr, .knowledgeBaseCr,
     .bedrockDataSource, .syncStateMachine, .triggerSyncLambda]

/-- Fuel-bounded transitive reachability along `directDeps`. -/
def dependsFuel : Nat → Node → Node → Bool
  | 0, _, _ => false
  | fuel + 1, a, b =>
    (directDeps a).any fun c => c = b || dependsFuel fuel c b

/-- `dependsOn a b` holds when construct `a` transitively depends on
construct `b`, so `b` is provisioned before `a`.  Thirteen constructs, so
fuel 13 saturates reachability. -/
def dependsOn (a b : Node) : Bool := dependsFuel 13 a b

/-- A CloudFormation-level value appearing in the stack: a literal string,
a literal number, an attribute reference to another construct, or a stack
pseudo parameter (region, account). -/
inductive CfnValue where
  | lit (s : String)
  | nat (n : Nat)
  | attrOf (n : Node) (attr : String)
  | pseudo (p : String)
deriving DecidableEq, Repr

/-- True when the value is derived from a provisioned resource rather than
written as a literal. -/
def isDerivedFromResource : CfnValue → Bool
  | .attrOf _ _ => true
  | _ => false

/-- The bucket name constant `policyVectorBucketName` (line 28). -/
def policyVectorBucketName : String := "broker-agent-policy-vector-bucket"

/-- The index name constant `policyVectorIndexName` (line 97). -/
def policyVectorIndexName : String := "broker-agent-policy-vector-index"

/-- The embedding dimensionality `vectorDimension` (line 98). -/
def vectorDimension : Nat := 1024

/-- The `knowledgeBaseId` property of the `CfnDataSource`
`bedrockDataSource` (line 307): the literal string `F0RI3FAYPP`, not a
reference to the knowledge base created by `knowledgeBaseCr`. -/
def dataSourceKnowledgeBaseId : CfnValue := .lit "F0RI3FAYPP"

/-- Environment of `syncKnowledgeBaseLambda` (lines 342-345). -/
def syncKnowledgeBaseLambdaEnv : List (String × CfnValue) :=
  [("KNOWLEDGE_BASE_ID", .lit "F0RI3FAYPP"),
   ("DATA_SOURCE_ID", .attrOf .bedrockDataSource "DataSourceId")]

/-- Payload of the `StartSyncJob` LambdaInvoke task (lines 368-371). -/
def startSyncJobPayload : List (String × CfnValue) :=
  [("knowledge_base_id", .lit "F0RI3FAYPP"),
   ("data_source_id", .attrOf .bedrockDataSource "DataSourceId")]

/-- Payload of the `CheckJobStatus` LambdaInvoke task (lines 382-386). -/
def checkJobStatusPayload : List (String × CfnValue) :=
  [("action", .lit "check_status"),
   ("knowledge_base_id", .lit "F0RI3FAYPP"),
   ("data_source_id", .attrOf .bedrockDataSource "DataSourceId")]

/-- Environment of `triggerSyncLambda` (lines 428-432). -/
def triggerSyncLambdaEnv : List (String × CfnValue) :=
  [("STATE_MACHINE_ARN", .attrOf .syncStateMachine "stateMachineArn"),
   ("KNOWLEDGE_BASE_ID", .lit "F0RI3FAYPP"),
   ("DATA_SOURCE_ID", .attrOf .bedrockDataSource "DataSourceId")]

/-- An API call made by an `AwsCustomResource` lifecycle event: a Lambda
invocation with a JSON payload, or the no-op `STS getCallerIdentity`. -/
inductive CrCall where
  | lambdaInvoke (fn : Node) (payload : List (String × CfnValue))
  | stsGetCallerIdentity
deriving DecidableEq, Repr

/-- `vectorBucketCr.onCreate` (lines 60-72): invoke the vector-bucket
Lambda with the bucket name. -/
def vectorBucketOnCreate : CrCall :=
  .lambdaInvoke .createVectorBucketLambda
    [("vector_bucket_name", .lit policyVectorBucketName)]

/-- `vectorBucketCr.onUpdate` (lines 73-79): `STS getCallerIdentity`. -/
def vectorBucketOnUpdate : CrCall := .stsGetCallerIdentity

/-- `vectorIndexCr.onCreate` (lines 130-144): invoke the vector-index
Lambda with bucket name, index name and dimension. -/
def vectorIndexOnCreate : CrCall :=
  .lambdaInvoke .createVectorIndexLambda
    [("vector_bucket_name", .lit policyVectorBucketName),
     ("vector_index_name", .lit policyVectorIndexName),
     ("vector_dimension", .nat vectorDimension)]

/-- `vectorIndexCr.onUpdate` (lines 145-159): the same Lambda invocation
with the same payload as `onCreate`. -/
def vectorIndexOnUpdate : CrCall :=
  .lambdaInvoke .createVectorIndexLambda
    [("vector_bucket_name", .lit policyVectorBucketName),
     ("vector_index_name", .lit policyVectorIndexName),
     ("vector_dimension", .nat vectorDimension)]

/-- `knowledgeBaseCr.onCreate` (lines 235-252): invoke the knowledge-base
Lambda with name, role ARN, region, account and vector store/index. -/
def knowledgeBaseOnCreate : CrCall :=
  .lambdaInvoke .createKnowledgeBaseLambda
    [("kb_name", .lit "broker-agent-bedrock-kb"),
     ("role_arn", .attrOf .kbRole "roleArn"),
     ("region_name", .pseudo "region"),
     ("account_id", .pseudo "account"),
     ("vector_store_name", .lit policyVectorBucketName),
     ("vector_index_name", .lit policyVectorIndexName)]

/-- `knowledgeBaseCr.onUpdate` (lines 253-259): `STS getCallerIdentity`. -/
def knowledgeBaseOnUpdate : CrCall := .stsGetCallerIdentity

/-- Modelled from the spec: the provisioning Lambda handlers
(`create_vector_bucket.py`, `create_vector_index.py`,
`create_knowledge_base.py`) are not under `src/`; per the spec the
provisioning operations are idempotent-by-intent, so a create invocation
puts the managed resource in the state determined by its parameters, and
`STS getCallerIdentity` does not touch the resource at all.  The resource
state is `none` before creation, `some payload` after a create call. -/
def applyCrCall (call : CrCall) (st : Option (List (String × CfnValue))) :
    Option (List (String × CfnValue)) :=
  match call with
  | .stsGetCallerIdentity => st
  | .lambdaInvoke _ payload => some payload

/-- S3 event types the stack can subscribe to. -/
inductive S3EventType where
  | objectCreated
  | objectRemoved
deriving DecidableEq, Repr

/-- The event notifications configured on `policySourceBucket`
(lines 446-449): exactly one, OBJECT_CREATED delivered to
`triggerSyncLambda`. -/
def policySourceBucketNotifications : List (S3EventType × Node) :=
  [(.objectCreated, .triggerSyncLambda)]

/-- One record of an S3 object-created notification. -/
structure S3EventRecord where
  bucket : String
  key : String
deriving DecidableEq, Repr

/-- The environment variables the trigger handler reads, as resolved
strings at run time. -/
structure TriggerEnvVars where
  stateMachineArn : String
  knowledgeBaseId : String
  dataSourceId : String
deriving DecidableEq, Repr

/-- A `states:StartExecution` call issued by the trigger handler. -/
structure StartExecutionCall where
  stateMachineArn : String
  knowledge_base_id : String
  data_source_id : String
deriving DecidableEq, Repr

/-- Modelled from the spec: `trigger_sync.handler` is not under `src/`
(the stack only registers it at lines 415-433); per spec section 6 the
handler receives the bucket/key of the created object and reads the
knowledge-base id and data-source id from its execution environment
(configuration, not computed), starting the sync workflow exactly once per
storage-creation event with those identifiers. -/
def triggerSyncHandler (env : TriggerEnvVars) (record : S3EventRecord) :
    List StartExecutionCall :=
  [⟨env.stateMachineArn, env.knowledgeBaseId, env.dataSourceId⟩]

/-! ## Helper lemmas about the poll loop -/

/-- Invariant of the Wait/CheckJobStatus loop trace: every visited state is
Wait, CheckJobStatus or a terminal state; the two terminal states are
visited at most once in total; and a terminal state can only be the last
state visited. -/
theorem pollLoop_inv (polls : Nat → Except Unit String) :
    ∀ fuel i elapsed,
      (∀ st ∈ (pollLoop polls i elapsed fuel).1,
          st ∈ [SyncState.waitForSync, SyncState.checkJobStatus,
                SyncState.syncComplete, SyncState.syncFailed]) ∧
      (pollLoop polls i elapsed fuel).1.count SyncState.syncComplete +
        (pollLoop polls i elapsed fuel).1.count SyncState.syncFailed ≤ 1 ∧
      (∀ t, isTerminal t = true → t ∈ (pollLoop polls i elapsed fuel).1 →
          (pollLoop polls i elapsed fuel).1.getLast? = some t) := by
  intro fuel
  induction fuel with
  | zero =>
    intro i elapsed
    simp [pollLoop]
  | succ fuel ih =>
    intro i elapsed
    simp only [pollLoop]
    split
    · refine ⟨by simp, by simp, ?_⟩
      intro t ht hm
      simp only [List.mem_singleton] at hm
      subst hm
      simp [isTerminal] at ht
    · split
      · refine ⟨by simp, by simp, ?_⟩
        intro t ht hm
        simp only [List.mem_cons, List.not_mem_nil, or_false] at hm
        rcases hm with rfl | rfl <;> simp [isTerminal] at ht
      · split
        · refine ⟨by simp, by simp [List.count_cons], ?_⟩
          intro t ht hm
          simp only [List.mem_cons, List.not_mem_nil, or_false] at hm
          rcases hm with rfl | rfl | rfl
          · simp [isTerminal] at ht
          · simp [isTerminal] at ht
          · rfl
        · refine ⟨by simp, by simp [List.count_cons], ?_⟩
          intro t ht hm
          simp only [List.mem_cons, List.not_mem_nil, or_false] at hm
          rcases hm with rfl | rfl | rfl
          · simp [isTerminal] at ht
          · simp [isTerminal] at ht
          · rfl
        · obtain ⟨h1, h2, h3⟩ := ih (i + 1) (elapsed + waitSeconds)
          refine ⟨?_, ?_, ?_⟩
          · intro st hst
            simp only [List.mem_cons] at hst
            rcases hst with rfl | rfl | hst
            · simp
            · simp
            · exact h1 st hst
          · have hc : SyncState.syncComplete ≠ SyncState.waitForSync := by decide
            have hf : SyncState.syncFailed ≠ SyncState.waitForSync := by decide
            have hc2 : SyncState.syncComplete ≠ SyncState.checkJobStatus := by decide
            have hf2 : SyncState.syncFailed ≠ SyncState.checkJobStatus := by decide
            simpa [List.count_cons_of_ne hc, List.count_cons_of_ne hf,
              List.count_cons_of_ne hc2, List.count_cons_of_ne hf2] using h2
          · intro t ht hm
            simp only [List.mem_cons] at hm
            rcases hm with rfl | rfl | hm
            · simp [isTerminal] at ht
            · simp [isTerminal] at ht
            · have hne := List.ne_nil_of_mem hm
              have hlast := h3 t ht hm
              obtain ⟨x, xs, hx⟩ :=
                List.exists_cons_of_ne_nil hne
              rw [hx] at hlast ⊢
              rw [List.getLast?_cons_cons, List.getLast?_cons_cons]
              exact hlast

/-- When every poll result is a non-terminal status, the loop trace is the
fixed `loopOnlyTrace` and the outcome is abortion by the timeout. -/
def loopOnlyTrace : Nat → Nat → List SyncState
  | _, 0 => []
  | elapsed, fuel + 1 =>
    if timeoutSeconds < elapsed + waitSeconds then [SyncState.waitForSync]
    else SyncState.waitForSync :: SyncState.checkJobStatus ::
      loopOnlyTrace (elapsed + waitSeconds) fuel

/-- With only non-terminal poll results the loop never reaches a terminal
state: its trace is `loopOnlyTrace` and its outcome is `timedOut`. -/
theorem pollLoop_nonterminal (polls : Nat → Except Unit String)
    (h : ∀ j, ∃ s, polls j = Except.ok s ∧ isSyncComplete s = SyncState.waitForSync) :
    ∀ fuel i elapsed,
      pollLoop polls i elapsed fuel = (loopOnlyTrace elapsed fuel, Outcome.timedOut) := by
  intro fuel
  induction fuel with
  | zero =>
    intro i elapsed
    simp [pollLoop, loopOnlyTrace]
  | succ fuel ih =>
    intro i elapsed
    obtain ⟨s, hs, hw⟩ := h i
    rw [pollLoop, loopOnlyTrace]
    split
    · rfl
    · rw [hs]
      simp only [hw]
      rw [ih (i + 1) (elapsed + waitSeconds)]

/-! ## Claim theorems -/

/-- C1: the IsSyncComplete Choice transitions as a function of the
final_status field of the CheckJobStatus output: COMPLETE goes to the
Succeed terminal state SyncComplete, FAILED goes to the Fail terminal
state SyncFailed, and every other value goes back to WaitForSync, which is
not a terminal state. -/
theorem c1_status_branch (s : String)
    (hc : s ≠ "COMPLETE") (hf : s ≠ "FAILED") :
    isSyncComplete "COMPLETE" = SyncState.syncComplete ∧
    isSyncComplete "FAILED" = SyncState.syncFailed ∧
    isSyncComplete s = SyncState.waitForSync ∧
    isTerminal (isSyncComplete s) = false := by
  refine ⟨by decide, by decide, ?_, ?_⟩ <;>
    simp [isSyncComplete, hc, hf, isTerminal]

/-- Witness for C1 at the concrete non-terminal status IN_PROGRESS. -/
theorem c1_status_branch_witness :
    isSyncComplete "COMPLETE" = SyncState.syncComplete ∧
    isSyncComplete "FAILED" = SyncState.syncFailed ∧
    isSyncComplete "IN_PROGRESS" = SyncState.waitForSync ∧
    isTerminal (isSyncComplete "IN_PROGRESS") = false :=
  c1_status_branch "IN_PROGRESS" (by decide) (by decide)

/-- C2: when the StartSyncJob Lambda invocation fails, the execution fails
having visited exactly the Pass state and StartSyncJob: WaitForSync and
CheckJobStatus are never entered, and StartSyncJob is visited exactly once
(the failed start is not retried). -/
theorem c2_start_failure (polls : Nat → Except Unit String) :
    runSync (Except.error ()) polls =
      ([SyncState.checkSyncStatus, SyncState.startSyncJob], Outcome.failed) ∧
    SyncState.waitForSync ∉ (runSync (Except.error ()) polls).1 ∧
    SyncState.checkJobStatus ∉ (runSync (Except.error ()) polls).1 ∧
    (runSync (Except.error ()) polls).1.count SyncState.startSyncJob = 1 := by
  refine ⟨rfl, ?_, ?_, rfl⟩ <;> simp [runSync]

/-- Witness for C2 at a concrete poll stream. -/
theorem c2_start_failure_witness :
    runSync (Except.error ()) (fun _ => Except.ok "COMPLETE") =
      ([SyncState.checkSyncStatus, SyncState.startSyncJob], Outcome.failed) :=
  (c2_start_failure (fun _ => Except.ok "COMPLETE")).1

/-- A poll stream answering IN_PROGRESS once and COMPLETE afterwards. -/
def pollsOneInProgress : Nat → Except Unit String :=
  fun i => if i = 0 then Except.ok "IN_PROGRESS" else Except.ok "COMPLETE"

/-- C3 counterexample: with one IN_PROGRESS poll before COMPLETE, the
execution visits WaitForSync and CheckJobStatus twice, so the visited
sequence is not a subsequence (sublist) of the five-state sequence
CheckSyncStatus, StartSyncJob, WaitForSync, CheckJobStatus, terminal — for
either choice of terminal state. -/
theorem c3_trace_not_sublist :
    ¬ (List.Sublist (runSync (Except.ok ()) pollsOneInProgress).1
        [SyncState.checkSyncStatus, SyncState.startSyncJob, SyncState.waitForSync,
         SyncState.checkJobStatus, SyncState.syncComplete] ∨
       List.Sublist (runSync (Except.ok ()) pollsOneInProgress).1
        [SyncState.checkSyncStatus, SyncState.startSyncJob, SyncState.waitForSync,
         SyncState.checkJobStatus, SyncState.syncFailed]) := by
  decide

/-- C3 amended: every state an execution visits is one of the six states of
the definition; the execution starts with CheckSyncStatus then StartSyncJob;
the Wait/CheckJobStatus pair may repeat; at most one terminal state is
visited (never both), and a terminal state can only be the last state
visited. -/
theorem c3_trace_invariant (startResult : Except Unit Unit)
    (polls : Nat → Except Unit String) :
    (∀ st ∈ (runSync startResult polls).1,
        st ∈ [SyncState.checkSyncStatus, SyncState.startSyncJob,
              SyncState.waitForSync, SyncState.checkJobStatus,
              SyncState.syncComplete, SyncState.syncFailed]) ∧
    (runSync startResult polls).1.take 2 =
      [SyncState.checkSyncStatus, SyncState.startSyncJob] ∧
    (runSync startResult polls).1.count SyncState.syncComplete +
      (runSync startResult polls).1.count SyncState.syncFailed ≤ 1 ∧
    (∀ t, isTerminal t = true → t ∈ (runSync startResult polls).1 →
        (runSync startResult polls).1.getLast? = some t) := by
  cases startResult with
  | error e =>
    refine ⟨by simp [runSync], by simp [runSync], by simp [runSync], ?_⟩
    intro t ht hm
    simp only [runSync, List.mem_cons, List.not_mem_nil, or_false] at hm
    rcases hm with rfl | rfl <;> simp [isTerminal] at ht
  | ok u =>
    obtain ⟨h1, h2, h3⟩ := pollLoop_inv polls pollFuel 0 0
    refine ⟨?_, by simp [runSync], ?_, ?_⟩
    · intro st hst
      simp only [runSync, List.mem_cons] at hst
      rcases hst with rfl | rfl | hst
      · simp
      · simp
      · have := h1 st hst
        simp only [List.mem_cons, List.not_mem_nil, or_false] at this
        simp [this]
    · have hc : SyncState.syncComplete ≠ SyncState.checkSyncStatus := by decide
      have hf : SyncState.syncFailed ≠ SyncState.checkSyncStatus := by decide
      have hc2 : SyncState.syncComplete ≠ SyncState.startSyncJob := by decide
      have hf2 : SyncState.syncFailed ≠ SyncState.startSyncJob := by decide
      simpa [runSync, List.count_cons_of_ne hc, List.count_cons_of_ne hf,
        List.count_cons_of_ne hc2, List.count_cons_of_ne hf2] using h2
    · intro t ht hm
      simp only [runSync, List.mem_cons] at hm
      rcases hm with rfl | rfl | hm
      · simp [isTerminal] at ht
      · simp [isTerminal] at ht
      · have hne := List.ne_nil_of_mem hm
        have hlast := h3 t ht hm
        obtain ⟨x, xs, hx⟩ := List.exists_cons_of_ne_nil hne
        simp only [runSync]
        rw [hx] at hlast ⊢
        rw [List.getLast?_cons_cons, List.getLast?_cons_cons]
        exact hlast

/-- Witness for C3 amended: at a concrete execution, the Succeed state is
the last state visited. -/
theorem c3_trace_invariant_witness :
    (runSync (Except.ok ()) pollsOneInProgress).1.getLast? =
      some SyncState.syncComplete :=
  (c3_trace_invariant (Except.ok ()) pollsOneInProgress).2.2.2
    SyncState.syncComplete (by decide) (by decide)

/-- C4: when every status check returns a non-terminal status, the
execution loops WaitForSync then CheckJobStatus until the two-hour
execution timeout elapses; the timeout aborts the execution (outcome
`timedOut`, a failure, not a terminal state of the definition), after
exactly timeoutSeconds / waitSeconds = 60 status checks. -/
theorem c4_nonterminal_times_out (polls : Nat → Except Unit String)
    (h : ∀ j, ∃ s, polls j = Except.ok s ∧
        isSyncComplete s = SyncState.waitForSync) :
    (runSync (Except.ok ()) polls).2 = Outcome.timedOut ∧
    (runSync (Except.ok ()) polls).1.count SyncState.checkJobStatus =
      timeoutSeconds / waitSeconds ∧
    (runSync (Except.ok ()) polls).1.count SyncState.syncComplete = 0 ∧
    (runSync (Except.ok ()) polls).1.count SyncState.syncFailed = 0 := by
  have hrun : runSync (Except.ok ()) polls =
      (SyncState.checkSyncStatus :: SyncState.startSyncJob ::
        loopOnlyTrace 0 pollFuel, Outcome.timedOut) := by
    simp [runSync, pollLoop_nonterminal polls h pollFuel 0 0]
  rw [hrun]
  refine ⟨rfl, by decide, by decide, by decide⟩

/-- Witness for C4 at the constant IN_PROGRESS poll stream. -/
theorem c4_nonterminal_times_out_witness :
    (runSync (Except.ok ()) (fun _ => Except.ok "IN_PROGRESS")).2 =
      Outcome.timedOut :=
  (c4_nonterminal_times_out (fun _ => Except.ok "IN_PROGRESS")
    (fun _ => ⟨"IN_PROGRESS", rfl, by decide⟩)).1

/-- C5 counterexample: neither the data source nor the sync state machine
depends, directly or transitively, on the knowledge-base registration
`knowledgeBaseCr` — the stack does not order their wiring after the
knowledge base exists; the data source instead binds the literal
placeholder id F0RI3FAYPP. -/
theorem c5_data_source_not_ordered :
    dependsOn Node.bedrockDataSource Node.knowledgeBaseCr = false ∧
    dependsOn Node.triggerSyncLambda Node.knowledgeBaseCr = false ∧
    dataSourceKnowledgeBaseId = CfnValue.lit "F0RI3FAYPP" := by
  decide

/-- C5 amended: vector-index creation depends on vector-bucket creation and
knowledge-base registration depends on vector-index creation (the two
explicit addDependency orderings hold, transitively down to the bucket),
but the data source and the sync workflow have no dependency on
knowledge-base registration — only the final asset deployment does. -/
theorem c5_provisioning_order :
    dependsOn Node.vectorIndexCr Node.vectorBucketCr = true ∧
    dependsOn Node.knowledgeBaseCr Node.vectorIndexCr = true ∧
    dependsOn Node.knowledgeBaseCr Node.vectorBucketCr = true ∧
    dependsOn Node.s3DeployPolicies Node.knowledgeBaseCr = true ∧
    dependsOn Node.bedrockDataSource Node.knowledgeBaseCr = false ∧
    dependsOn Node.syncStateMachine Node.knowledgeBaseCr = false := by
  decide

/-- C6: every reference to the knowledge base outside its provisioning path
— the data source binding, the sync Lambda environment, the StartSyncJob
and CheckJobStatus payloads, and the trigger Lambda environment — is the
same literal F0RI3FAYPP, not a value derived from the knowledge-base
resource. -/
theorem c6_literal_kb_id :
    dataSourceKnowledgeBaseId = CfnValue.lit "F0RI3FAYPP" ∧
    syncKnowledgeBaseLambdaEnv.lookup "KNOWLEDGE_BASE_ID" =
      some (CfnValue.lit "F0RI3FAYPP") ∧
    startSyncJobPayload.lookup "knowledge_base_id" =
      some (CfnValue.lit "F0RI3FAYPP") ∧
    checkJobStatusPayload.lookup "knowledge_base_id" =
      some (CfnValue.lit "F0RI3FAYPP") ∧
    triggerSyncLambdaEnv.lookup "KNOWLEDGE_BASE_ID" =
      some (CfnValue.lit "F0RI3FAYPP") ∧
    isDerivedFromResource dataSourceKnowledgeBaseId = false := by
  decide

/-- C7: the source bucket delivers exactly one notification wiring —
OBJECT_CREATED to the trigger Lambda — and the trigger handler issues
exactly one StartExecution per creation event, carrying the knowledge-base
and data-source identifiers it reads from its environment; its output does
not depend on the event record, and the deployed environment fixes
KNOWLEDGE_BASE_ID to the literal F0RI3FAYPP and DATA_SOURCE_ID to the data
source attribute. -/
theorem c7_single_trigger (env : TriggerEnvVars) (r1 r2 : S3EventRecord) :
    policySourceBucketNotifications =
      [(S3EventType.objectCreated, Node.triggerSyncLambda)] ∧
    triggerSyncHandler env r1 =
      [⟨env.stateMachineArn, env.knowledgeBaseId, env.dataSourceId⟩] ∧
    (triggerSyncHandler env r1).length = 1 ∧
    triggerSyncHandler env r1 = triggerSyncHandler env r2 ∧
    triggerSyncLambdaEnv.lookup "KNOWLEDGE_BASE_ID" =
      some (CfnValue.lit "F0RI3FAYPP") ∧
    triggerSyncLambdaEnv.lookup "DATA_SOURCE_ID" =
      some (CfnValue.attrOf Node.bedrockDataSource "DataSourceId") := by
  exact ⟨rfl, rfl, rfl, rfl, by decide, by decide⟩

/-- C8: WaitForSync pauses on a fixed duration of two minutes, and it is
the only state of the definition with a pause of any kind; the pause is
time-based (a duration), not condition-based. -/
theorem c8_wait_only_suspension (s : SyncState)
    (h : s ≠ SyncState.waitForSync) :
    statePause SyncState.waitForSync = some (WaitTimeKind.duration (2 * 60)) ∧
    waitForSyncTime = WaitTimeKind.duration waitSeconds ∧
    statePause s = none := by
  refine ⟨by decide, by decide, ?_⟩
  cases s <;> simp_all [statePause]

/-- Witness for C8 at the concrete non-wait state CheckJobStatus. -/
theorem c8_wait_only_suspension_witness :
    statePause SyncState.checkJobStatus = none :=
  (c8_wait_only_suspension SyncState.checkJobStatus (by decide)).2.2

/-- C9: for each provisioning custom resource, the update path is either
the STS no-op (vector bucket, knowledge base) or a re-invocation of the
same create call with the same parameters (vector index), so applying
update after create leaves the modelled resource state exactly as create
alone left it. -/
theorem c9_update_idempotent (st : Option (List (String × CfnValue))) :
    (vectorBucketOnUpdate = CrCall.stsGetCallerIdentity ∨
      vectorBucketOnUpdate = vectorBucketOnCreate) ∧
    (vectorIndexOnUpdate = CrCall.stsGetCallerIdentity ∨
      vectorIndexOnUpdate = vectorIndexOnCreate) ∧
    (knowledgeBaseOnUpdate = CrCall.stsGetCallerIdentity ∨
      knowledgeBaseOnUpdate = knowledgeBaseOnCreate) ∧
    applyCrCall vectorBucketOnUpdate (applyCrCall vectorBucketOnCreate st) =
      applyCrCall vectorBucketOnCreate st ∧
    applyCrCall vectorIndexOnUpdate (applyCrCall vectorIndexOnCreate st) =
      applyCrCall vectorIndexOnCreate st ∧
    applyCrCall knowledgeBaseOnUpdate (applyCrCall knowledgeBaseOnCreate st) =
      applyCrCall knowledgeBaseOnCreate st :=
  ⟨Or.inl rfl, Or.inr rfl, Or.inl rfl, rfl, rfl, rfl⟩

/-- C10: CheckSyncStatus is a Pass state that performs no check of
in-flight executions (its output is independent of how many executions are
running) and leaves its input unchanged, and every execution
unconditionally proceeds from it to StartSyncJob. -/
theorem c10_no_mutual_exclusion (n m : Nat)
    (input : List (String × CfnValue)) (startResult : Except Unit Unit)
    (polls : Nat → Except Unit String) :
    stateKind SyncState.checkSyncStatus = StateKind.pass ∧
    checkSyncStatusOutput n input = input ∧
    checkSyncStatusOutput n input = checkSyncStatusOutput m input ∧
    chainNext SyncState.checkSyncStatus = some SyncState.startSyncJob ∧
    (runSync startResult polls).1.take 2 =
      [SyncState.checkSyncStatus, SyncState.startSyncJob] := by
  refine ⟨rfl, rfl, rfl, rfl, ?_⟩
  cases startResult <;> rfl

end BrokerAgent
